import Mathlib

/-!
Shallow embedding of the ChatApp server (`src/server.py`) and proofs about it.

The server keeps four global dictionaries (`online_users`, `users_db`, `groups`,
`offline_messages`) and serves each connection with the dispatch loop
`handle_client`, which decodes a length-prefixed JSON frame, runs one of the
`handle_*` coroutines, and writes back a response.  Here each handler becomes a
pure function from its request fields and the global state to the new state,
the response it returns, and the list of push messages it writes to clients.

Modelling decisions, kept uniform throughout:
* Python dicts are association lists `List (String × α)` in insertion order
  (Python 3.7+ dicts iterate in insertion order); `online_users` only ever
  needs its key set and which connection a name maps to, so it is a
  `List String` of usernames and a push to user `u`'s connection is recorded
  as a pair `(u, notif)`.
* Python sets (`groups` values) are `List String`; the handlers only test
  membership, add absent elements and filter, so list order is immaterial
  to every statement proved below.
* `time.time()` timestamps carry no information any handler reads back, so
  responses and push messages omit them.
* `hashlib.sha256(...).hexdigest()` is only ever applied to password strings
  and compared for equality with stored values that are themselves outputs of
  the same function, so it is modelled by a collision-free digest: the
  identity map on strings.
* The byte stream of a connection is `List Nat` (each entry a byte value);
  `receive_message`'s exception handlers, which all return `""`, become the
  corresponding `""` results.
-/

namespace ChatApp

/-- Python `str.strip()` with no argument: remove leading and trailing
whitespace.  Modelled on the whitespace characters space, tab, carriage
return and newline (`Char.isWhitespace`); every string the protocol
exercises is covered by these. -/
def pyStrip (s : String) : String :=
  String.mk (((s.data.dropWhile Char.isWhitespace).reverse.dropWhile Char.isWhitespace).reverse)

/-- Association list lookup: Python `d[k]` / `d.get(k)` on a dict modelled as
an insertion-ordered list of key-value pairs. -/
def lookupKey {α : Type} (k : String) : List (String × α) → Option α
  | [] => none
  | (k', v) :: rest => if k' = k then some v else lookupKey k rest

/-- Python `k in d` on a dict modelled as an association list. -/
def hasKey {α : Type} (k : String) (l : List (String × α)) : Bool :=
  (lookupKey k l).isSome

/-- Python `del d[k]`: removes the (unique) binding of `k` if present. -/
def eraseKey {α : Type} (k : String) : List (String × α) → List (String × α)
  | [] => []
  | (k', v) :: rest => if k' = k then rest else (k', v) :: eraseKey k rest

/-- Python `d[k] = f(d[k])` in place, used for `groups[name].add(user)`. -/
def updateKey {α : Type} (k : String) (f : α → α) : List (String × α) → List (String × α)
  | [] => []
  | (k', v) :: rest => if k' = k then (k', f v) :: rest else (k', v) :: updateKey k f rest

/-- The `offline_messages` update in `handle_private_chat` (src/server.py:180-182):
if the key is absent, bind it to the one-element queue, at the end of the dict;
otherwise append to its queue in place. -/
def enqueueOffline {α : Type} (k : String) (v : α) : List (String × List α) → List (String × List α)
  | [] => [(k, [v])]
  | (k', vs) :: rest =>
    if k' = k then (k', vs ++ [v]) :: rest else (k', vs) :: enqueueOffline k v rest

/-- A push message built by `create_notification` (src/server.py:33-40): one of
the three unsolicited server→client message types, with its `data` fields
(`timestamp` omitted, see the header). -/
inductive Notif where
  | private_message (sender message : String)
  | group_message (sender group message : String)
  | update_online_users (online_users registered_users : List String)
  deriving DecidableEq, Repr

/-- The `data` object of a response, when present. -/
inductive RespData where
  | loginSnapshot (online_users registered_users : List String)
  | sentTo (sent_to : Nat)
  | groupsData (my_groups all_groups : List String)
  deriving DecidableEq, Repr

/-- A response built by `create_response` (src/server.py:21-31), `timestamp`
omitted (see the header). -/
structure Response where
  rtype : String
  status : String
  message : String
  data : Option RespData
  deriving DecidableEq, Repr

/-- Model of `create_response(msg_type, status, data, message)` (src/server.py:21-31). -/
def create_response (msg_type : String) (status : String) (data : Option RespData)
    (message : String) : Response :=
  { rtype := msg_type ++ "_response", status := status, message := message, data := data }

/-- The four global dictionaries of src/server.py:8-11.  `users_db` values keep
only the `password_hash` field (`created_time` is never read back by any
handler); `online_users` keeps only the key list, see the header. -/
structure ServerState where
  users_db : List (String × String)
  online_users : List String
  groups : List (String × List String)
  offline_messages : List (String × List Notif)
  deriving DecidableEq, Repr

/-- The server state at process start: all four dictionaries empty. -/
def initialState : ServerState :=
  { users_db := [], online_users := [], groups := [], offline_messages := [] }

/-- Model of `hash_password` (src/server.py:17-19): SHA-256 hex digest of the password.
The handlers only compare digests of strings with each other for equality, so
the digest is modelled collision-free as the identity map (see the header). -/
def hash_password (password : String) : String := password

/-- Model of `broadcast_online_users_update` (src/server.py:79-89): sends the
`update_online_users` snapshot of the current state to every online user. -/
def broadcast_online_users_update (s : ServerState) : List (String × Notif) :=
  s.online_users.map
    (fun u => (u, Notif.update_online_users s.online_users (s.users_db.map Prod.fst)))

/-- Result of a handler that does not touch the connection's own user binding:
new global state, the response returned, and the pushes written to (other)
clients' connections, in program order. -/
structure HandlerResult where
  state : ServerState
  resp : Response
  sends : List (String × Notif)
  deriving DecidableEq, Repr

/-- Model of `handle_register` (src/server.py:91-111). -/
def handle_register (username0 password0 : String) (s : ServerState) : HandlerResult :=
  let username := pyStrip username0
  let password := pyStrip password0
  if username = "" ∨ password = "" then
    ⟨s, create_response "register" "error" none "用户名和密码不能为空", []⟩
  else if hasKey username s.users_db then
    ⟨s, create_response "register" "error" none "用户名已存在", []⟩
  else
    let s' := { s with users_db := s.users_db ++ [(username, hash_password password)] }
    ⟨s', create_response "register" "success" none "注册成功",
     broadcast_online_users_update s'⟩

/-- Result of `handle_login`: besides state, response and pushes to named
online users, the new value of the connection's `current_user[0]` cell and the
frames written directly to this connection's own writer while draining the
offline mailbox (src/server.py:141-144), in order. -/
structure LoginResult where
  state : ServerState
  currentUser : Option String
  resp : Response
  drained : List Notif
  sends : List (String × Notif)
  deriving DecidableEq, Repr

/-- Model of `handle_login` (src/server.py:113-151).  Mirrors the source line by line:
field checks, existence, password, already-online; on success insert into
`online_users`, take the snapshot lists, drain and delete the offline mailbox,
broadcast, and return the success response carrying the snapshot. -/
def handle_login (username0 password0 : String) (current_user : Option String)
    (s : ServerState) : LoginResult :=
  let username := pyStrip username0
  let password := pyStrip password0
  if username = "" ∨ password = "" then
    ⟨s, current_user, create_response "login" "error" none "用户名和密码不能为空", [], []⟩
  else
    match lookupKey username s.users_db with
    | none => ⟨s, current_user, create_response "login" "error" none "用户不存在", [], []⟩
    | some stored_hash =>
      if stored_hash ≠ hash_password password then
        ⟨s, current_user, create_response "login" "error" none "密码错误", [], []⟩
      else if username ∈ s.online_users then
        ⟨s, current_user, create_response "login" "error" none "用户已在线", [], []⟩
      else
        let s1 := { s with online_users := s.online_users ++ [username] }
        let online_list := s1.online_users
        let registered_list := s1.users_db.map Prod.fst
        let drained := (lookupKey username s1.offline_messages).getD []
        let s2 := { s1 with offline_messages := eraseKey username s1.offline_messages }
        ⟨s2, some username,
         create_response "login" "success"
           (some (RespData.loginSnapshot online_list registered_list)) "登录成功",
         drained, broadcast_online_users_update s2⟩

/-- Model of `handle_private_chat` (src/server.py:153-183). -/
def handle_private_chat (to0 message0 : String) (sender : String) (s : ServerState) :
    HandlerResult :=
  let target := pyStrip to0
  let message := pyStrip message0
  if target = "" ∨ message = "" then
    ⟨s, create_response "private_chat" "error" none "目标用户和消息内容不能为空", []⟩
  else if target = sender then
    ⟨s, create_response "private_chat" "error" none "不能发送消息给自己", []⟩
  else if ¬ hasKey target s.users_db then
    ⟨s, create_response "private_chat" "error" none "目标用户不存在", []⟩
  else
    let n := Notif.private_message sender message
    if target ∈ s.online_users then
      ⟨s, create_response "private_chat" "success" none "消息已发送", [(target, n)]⟩
    else
      ⟨{ s with offline_messages := enqueueOffline target n s.offline_messages },
       create_response "private_chat" "success" none "目标用户不在线，消息已存储为离线消息", []⟩

/-- Model of `handle_group_chat` (src/server.py:185-215).  The push loop over the
member set sends to every member other than the sender who is online, counting
the sends; the count is returned as `sent_to`. -/
def handle_group_chat (group0 message0 : String) (sender : String) (s : ServerState) :
    HandlerResult :=
  let group_name := pyStrip group0
  let message := pyStrip message0
  if group_name = "" ∨ message = "" then
    ⟨s, create_response "group_chat" "error" none "群名和消息内容不能为空", []⟩
  else
    match lookupKey group_name s.groups with
    | none => ⟨s, create_response "group_chat" "error" none "群组不存在", []⟩
    | some members =>
      if sender ∉ members then
        ⟨s, create_response "group_chat" "error" none "您不在该群组中", []⟩
      else
        let n := Notif.group_message sender group_name message
        let recipients := members.filter (fun m => decide (m ≠ sender ∧ m ∈ s.online_users))
        ⟨s, create_response "group_chat" "success"
            (some (RespData.sentTo recipients.length)) "消息已发送",
         recipients.map (fun m => (m, n))⟩

/-- Model of `handle_create_group` (src/server.py:217-231). -/
def handle_create_group (group_name0 : String) (creator : String) (s : ServerState) :
    HandlerResult :=
  let group_name := pyStrip group_name0
  if group_name = "" then
    ⟨s, create_response "create_group" "error" none "群组名不能为空", []⟩
  else if hasKey group_name s.groups then
    ⟨s, create_response "create_group" "error" none "群组已存在", []⟩
  else
    ⟨{ s with groups := s.groups ++ [(group_name, [creator])] },
     create_response "create_group" "success" none "群组创建成功", []⟩

/-- Model of `handle_join_group` (src/server.py:233-250). -/
def handle_join_group (group_name0 : String) (user : String) (s : ServerState) :
    HandlerResult :=
  let group_name := pyStrip group_name0
  if group_name = "" then
    ⟨s, create_response "join_group" "error" none "群组名不能为空", []⟩
  else
    match lookupKey group_name s.groups with
    | none => ⟨s, create_response "join_group" "error" none "群组不存在", []⟩
    | some members =>
      if user ∈ members then
        ⟨s, create_response "join_group" "error" none "您已在该群组中", []⟩
      else
        ⟨{ s with groups := updateKey group_name (fun ms => ms ++ [user]) s.groups },
         create_response "join_group" "success" none "成功加入群组", []⟩

/-- Model of `handle_list_groups` (src/server.py:252-261). -/
def handle_list_groups (user : String) (s : ServerState) : HandlerResult :=
  let user_groups := (s.groups.filter (fun gv => decide (user ∈ gv.2))).map Prod.fst
  let all_groups := s.groups.map Prod.fst
  ⟨s, create_response "list_groups" "success"
      (some (RespData.groupsData user_groups all_groups)) "", []⟩

/-- Model of `handle_logout` (src/server.py:263-270): removes the session and broadcasts
if the user is online, otherwise does nothing at all. -/
def handle_logout (user : String) (s : ServerState) : ServerState × List (String × Notif) :=
  if user ∈ s.online_users then
    let s' := { s with online_users := s.online_users.erase user }
    (s', broadcast_online_users_update s')
  else (s, [])

/-- A decoded client envelope: the `type` field together with the `data`
fields the dispatcher extracts for it (each defaulting to `""` when absent,
exactly the effect of `data.get(field, "")`). -/
inductive Request where
  | register (username password : String)
  | login (username password : String)
  | logout
  | private_chat (target message : String)
  | group_chat (group message : String)
  | create_group (group_name : String)
  | join_group (group_name : String)
  | list_groups
  | unknown (msg_type : String)
  deriving DecidableEq, Repr

/-- Result of one dispatch by `handle_client`: new global state, the
connection's new `current_user[0]`, the response sent back, the frames
written to this connection's own writer before the response (only a login's
mailbox drain produces these), and the pushes to named online users. -/
structure StepResult where
  state : ServerState
  currentUser : Option String
  resp : Response
  selfSends : List Notif
  sends : List (String × Notif)
  deriving DecidableEq, Repr

/-- One iteration of the dispatch in `handle_client` (src/server.py:296-325):
`register`, `login` and `logout` are matched first regardless of auth state;
every other type requires `current_user[0]` to be set and otherwise yields the
`auth` error response. -/
def step (req : Request) (current_user : Option String) (s : ServerState) : StepResult :=
  match req with
  | .register u p =>
    let r := handle_register u p s
    ⟨r.state, current_user, r.resp, [], r.sends⟩
  | .login u p =>
    let r := handle_login u p current_user s
    ⟨r.state, r.currentUser, r.resp, r.drained, r.sends⟩
  | .logout =>
    match current_user with
    | some u =>
      let r := handle_logout u s
      ⟨r.1, none, create_response "logout" "success" none "已成功登出", [], r.2⟩
    | none => ⟨s, none, create_response "logout" "error" none "您尚未登录", [], []⟩
  | .private_chat t m =>
    match current_user with
    | some u =>
      let r := handle_private_chat t m u s
      ⟨r.state, current_user, r.resp, [], r.sends⟩
    | none => ⟨s, none, create_response "auth" "error" none "请先登录", [], []⟩
  | .group_chat g m =>
    match current_user with
    | some u =>
      let r := handle_group_chat g m u s
      ⟨r.state, current_user, r.resp, [], r.sends⟩
    | none => ⟨s, none, create_response "auth" "error" none "请先登录", [], []⟩
  | .create_group g =>
    match current_user with
    | some u =>
      let r := handle_create_group g u s
      ⟨r.state, current_user, r.resp, [], r.sends⟩
    | none => ⟨s, none, create_response "auth" "error" none "请先登录", [], []⟩
  | .join_group g =>
    match current_user with
    | some u =>
      let r := handle_join_group g u s
      ⟨r.state, current_user, r.resp, [], r.sends⟩
    | none => ⟨s, none, create_response "auth" "error" none "请先登录", [], []⟩
  | .list_groups =>
    match current_user with
    | some u =>
      let r := handle_list_groups u s
      ⟨r.state, current_user, r.resp, [], r.sends⟩
    | none => ⟨s, none, create_response "auth" "error" none "请先登录", [], []⟩
  | .unknown _ =>
    match current_user with
    | some _ => ⟨s, current_user, create_response "unknown" "error" none "未知的消息类型", [], []⟩
    | none => ⟨s, none, create_response "auth" "error" none "请先登录", [], []⟩

/-- Is `b` a UTF-8 continuation byte (`0x80`–`0xBF`)? -/
def utf8Cont (b : Nat) : Bool := 0x80 ≤ b && b ≤ 0xBF

/-- Allowed range of the second byte of a three-byte UTF-8 sequence led by
`b1` (`0xE0` forbids overlongs, `0xED` forbids surrogates). -/
def utf8Cont3 (b1 b2 : Nat) : Bool :=
  if b1 = 0xE0 then 0xA0 ≤ b2 && b2 ≤ 0xBF
  else if b1 = 0xED then 0x80 ≤ b2 && b2 ≤ 0x9F
  else utf8Cont b2

/-- Allowed range of the second byte of a four-byte UTF-8 sequence led by
`b1` (`0xF0` forbids overlongs, `0xF4` caps at `U+10FFFF`). -/
def utf8Cont4 (b1 b2 : Nat) : Bool :=
  if b1 = 0xF0 then 0x90 ≤ b2 && b2 ≤ 0xBF
  else if b1 = 0xF4 then 0x80 ≤ b2 && b2 ≤ 0x8F
  else utf8Cont b2

/-- Strict UTF-8 decoding of a byte list, `none` on any invalid sequence:
Python's `bytes.decode('utf-8')`, whose `UnicodeDecodeError` becomes `none`. -/
def utf8Decode : List Nat → Option (List Char)
  | [] => some []
  | b1 :: t1 =>
    if b1 ≤ 0x7F then
      (utf8Decode t1).map (fun cs => Char.ofNat b1 :: cs)
    else
      match t1 with
      | [] => none
      | b2 :: t2 =>
        if 0xC2 ≤ b1 ∧ b1 ≤ 0xDF then
          if utf8Cont b2 then
            (utf8Decode t2).map (fun cs => Char.ofNat ((b1 - 0xC0) * 64 + (b2 - 0x80)) :: cs)
          else none
        else
          match t2 with
          | [] => none
          | b3 :: t3 =>
            if 0xE0 ≤ b1 ∧ b1 ≤ 0xEF then
              if utf8Cont3 b1 b2 && utf8Cont b3 then
                (utf8Decode t3).map (fun cs =>
                  Char.ofNat ((b1 - 0xE0) * 4096 + (b2 - 0x80) * 64 + (b3 - 0x80)) :: cs)
              else none
            else
              match t3 with
              | [] => none
              | b4 :: t4 =>
                if 0xF0 ≤ b1 ∧ b1 ≤ 0xF4 then
                  if utf8Cont4 b1 b2 && utf8Cont b3 && utf8Cont b4 then
                    (utf8Decode t4).map (fun cs =>
                      Char.ofNat ((b1 - 0xF0) * 262144 + (b2 - 0x80) * 4096
                        + (b3 - 0x80) * 64 + (b4 - 0x80)) :: cs)
                  else none
                else none

/-- Big-endian interpretation of the 4 length bytes
(`int.from_bytes(length_bytes, byteorder='big')`, src/server.py:60). -/
def lengthOfBytes (b0 b1 b2 b3 : Nat) : Nat :=
  ((b0 * 256 + b1) * 256 + b2) * 256 + b3

/-- Model of `receive_message` (src/server.py:55-77) on the remaining byte stream of a
connection (the bytes the client sends before closing).  Fewer than 4 bytes
available makes `readexactly(4)` raise `IncompleteReadError` → `""`; a stream
that ends before `length` payload bytes arrive makes the read loop raise
`ConnectionResetError`, caught by the generic handler → `""`; an invalid UTF-8
payload raises `UnicodeDecodeError`, also caught → `""`; otherwise the decoded
payload is returned (for a zero `length` this is `''.join([]) = ""`). -/
def receive_message (stream : List Nat) : String :=
  match stream with
  | b0 :: b1 :: b2 :: b3 :: rest =>
    let length := lengthOfBytes b0 b1 b2 b3
    if rest.length < length then ""
    else
      match utf8Decode (rest.take length) with
      | some cs => String.mk cs
      | none => ""
  | _ => ""

/-- What the read loop in `handle_client` (src/server.py:280-284) does with
the next frame: `if not raw_message: break` exits the loop into the `finally`
cleanup, anything else is dispatched (and answered with a response). -/
inductive LoopAction where
  | disconnect
  | dispatch (raw : String)
  deriving DecidableEq, Repr

/-- One read-loop decision of `handle_client` on the remaining byte stream. -/
def read_loop_action (stream : List Nat) : LoopAction :=
  let raw := receive_message stream
  if raw = "" then LoopAction.disconnect else LoopAction.dispatch raw

/-- The `finally` cleanup of `handle_client` (src/server.py:343-349): if a
user is bound and still online, run `handle_logout`; then the connection is
closed (no response is sent on this path). -/
def client_cleanup (current_user : Option String) (s : ServerState) :
    ServerState × List (String × Notif) :=
  match current_user with
  | some u => if u ∈ s.online_users then handle_logout u s else (s, [])
  | none => (s, [])

/-- Sending a sequence of `private_chat` requests with the given texts from
`sender` to `target`, threading the server state through
`handle_private_chat`. -/
def privateChatSeq (sender target : String) (msgs : List String) (s : ServerState) :
    ServerState :=
  msgs.foldl (fun st m => (handle_private_chat target m sender st).state) s

/-! ### General lemmas about the handlers -/

/-- On a successful login the result is exactly: session appended, user bound,
success response carrying the post-insert snapshot, mailbox drained and its
key deleted, broadcast of the final state. -/
theorem login_success_spec (s : ServerState) (cu : Option String) (u p : String)
    (hu : pyStrip u ≠ "") (hp : pyStrip p ≠ "")
    (hreg : lookupKey (pyStrip u) s.users_db = some (hash_password (pyStrip p)))
    (hon : pyStrip u ∉ s.online_users) :
    handle_login u p cu s =
      ⟨⟨s.users_db, s.online_users ++ [pyStrip u], s.groups,
        eraseKey (pyStrip u) s.offline_messages⟩,
       some (pyStrip u),
       create_response "login" "success"
         (some (RespData.loginSnapshot (s.online_users ++ [pyStrip u]) (s.users_db.map Prod.fst)))
         "登录成功",
       (lookupKey (pyStrip u) s.offline_messages).getD [],
       broadcast_online_users_update
         ⟨s.users_db, s.online_users ++ [pyStrip u], s.groups,
          eraseKey (pyStrip u) s.offline_messages⟩⟩ := by
  simp [handle_login, hu, hp, hreg, hon]

/-- A login request for a username that is already in the session registry
never changes the state, the binding, or sends anything; it always fails, and
with well-formed, correct credentials it fails with the already-online error. -/
theorem login_online_spec (s : ServerState) (cu : Option String) (u p : String)
    (hon : pyStrip u ∈ s.online_users) :
    (handle_login u p cu s).state = s ∧
    (handle_login u p cu s).currentUser = cu ∧
    (handle_login u p cu s).drained = [] ∧
    (handle_login u p cu s).sends = [] ∧
    (handle_login u p cu s).resp.status = "error" ∧
    (pyStrip u ≠ "" → pyStrip p ≠ "" →
      lookupKey (pyStrip u) s.users_db = some (hash_password (pyStrip p)) →
      (handle_login u p cu s).resp = create_response "login" "error" none "用户已在线") := by
  by_cases h1 : pyStrip u = "" ∨ pyStrip p = ""
  · rcases h1 with h1 | h1 <;> refine ⟨?_, ?_, ?_, ?_, ?_, ?_⟩ <;>
      simp_all [handle_login, create_response]
  · rcases hlk : lookupKey (pyStrip u) s.users_db with _ | sh
    · refine ⟨?_, ?_, ?_, ?_, ?_, ?_⟩ <;> simp_all [handle_login, h1, hlk, create_response]
    · by_cases h2 : sh = hash_password (pyStrip p)
      · refine ⟨?_, ?_, ?_, ?_, ?_, ?_⟩ <;> simp_all [handle_login, h1, hlk, h2, hon, create_response]
      · refine ⟨?_, ?_, ?_, ?_, ?_, ?_⟩ <;> simp_all [handle_login, h1, hlk, h2, create_response]

/-- The outcome of `handle_login` does not depend on the connection's current
binding except that the binding is passed through unchanged on failure. -/
theorem login_cu_irrelevant (s : ServerState) (u p : String) (cu cu' : Option String) :
    (handle_login u p cu' s).state = (handle_login u p cu s).state ∧
    (handle_login u p cu' s).resp = (handle_login u p cu s).resp ∧
    (handle_login u p cu' s).drained = (handle_login u p cu s).drained ∧
    (handle_login u p cu' s).sends = (handle_login u p cu s).sends := by
  by_cases h1 : pyStrip u = "" ∨ pyStrip p = ""
  · simp [handle_login, h1]
  · rcases hlk : lookupKey (pyStrip u) s.users_db with _ | sh
    · simp [handle_login, h1, hlk]
    · by_cases h2 : sh = hash_password (pyStrip p)
      · by_cases h3 : pyStrip u ∈ s.online_users <;> simp [handle_login, h1, hlk, h2, h3]
      · simp [handle_login, h1, hlk, h2]

/-! ### C9 -/

/-- C9: a frame whose 4-byte length prefix is all zero makes `receive_message`
return the empty string (the empty payload decodes to `""`), so the read loop
of `handle_client` breaks out (runs the cleanup/close path) instead of
dispatching the frame and sending a response. -/
theorem C9_zero_length_frame_disconnects (rest : List Nat) :
    receive_message (0 :: 0 :: 0 :: 0 :: rest) = "" ∧
    read_loop_action (0 :: 0 :: 0 :: 0 :: rest) = LoopAction.disconnect := by
  have h : receive_message (0 :: 0 :: 0 :: 0 :: rest) = "" := by
    simp [receive_message, lengthOfBytes, utf8Decode]
  exact ⟨h, by simp [read_loop_action, h]⟩

/-! ### C7 -/

/-- C7: a `logout` request with no bound user yields an error response and no
change; `handle_logout` itself is a no-op on an absent username; a `logout`
request while bound removes the session, unbinds the user and returns the
success response; and a second `logout` right after any `logout` always yields
the error response and changes nothing. -/
theorem C7_logout_idempotent (s : ServerState) (cu : Option String) (u : String)
    (habsent : u ∉ s.online_users) :
    step Request.logout none s =
      ⟨s, none, create_response "logout" "error" none "您尚未登录", [], []⟩ ∧
    handle_logout u s = (s, []) ∧
    (∀ v : String,
      (step Request.logout (some v) s).resp = create_response "logout" "success" none "已成功登出" ∧
      (step Request.logout (some v) s).currentUser = none ∧
      (step Request.logout (some v) s).state.online_users = s.online_users.erase v ∧
      (step Request.logout (some v) s).state.users_db = s.users_db ∧
      (step Request.logout (some v) s).state.groups = s.groups ∧
      (step Request.logout (some v) s).state.offline_messages = s.offline_messages) ∧
    step Request.logout (step Request.logout cu s).currentUser (step Request.logout cu s).state =
      ⟨(step Request.logout cu s).state, none,
       create_response "logout" "error" none "您尚未登录", [], []⟩ := by
  refine ⟨by simp [step], by simp [handle_logout, habsent], ?_, ?_⟩
  · intro v
    by_cases hv : v ∈ s.online_users
    · simp [step, handle_logout, hv]
    · simp [step, handle_logout, hv, List.erase_of_not_mem hv]
  · have hnone : (step Request.logout cu s).currentUser = none := by
      cases cu <;> simp [step]
    rw [hnone]
    simp [step]

/-- Witness for C7 at a concrete state: `bob` is not online, `alice` is. -/
theorem C7_logout_idempotent_witness :
    step Request.logout none ⟨[("alice", "p1")], ["alice"], [], []⟩ =
      ⟨⟨[("alice", "p1")], ["alice"], [], []⟩, none,
       create_response "logout" "error" none "您尚未登录", [], []⟩ ∧
    handle_logout "bob" ⟨[("alice", "p1")], ["alice"], [], []⟩ =
      (⟨[("alice", "p1")], ["alice"], [], []⟩, []) ∧
    (step Request.logout (some "alice") ⟨[("alice", "p1")], ["alice"], [], []⟩).resp =
      create_response "logout" "success" none "已成功登出" := by
  have h := C7_logout_idempotent ⟨[("alice", "p1")], ["alice"], [], []⟩ (some "alice") "bob"
    (by decide)
  exact ⟨h.1, h.2.1, (h.2.2.1 "alice").1⟩

/-! ### C8 -/

/-- C8: a successful login's response carries the online/registered snapshot
taken right after the session is inserted (and before the mailbox drain and
the broadcast): it is the pre-login online list with the logging-in user
appended, so it contains the user itself. -/
theorem C8_login_snapshot (s : ServerState) (cu : Option String) (u p : String)
    (hu : pyStrip u ≠ "") (hp : pyStrip p ≠ "")
    (hreg : lookupKey (pyStrip u) s.users_db = some (hash_password (pyStrip p)))
    (hon : pyStrip u ∉ s.online_users) :
    (handle_login u p cu s).resp =
      create_response "login" "success"
        (some (RespData.loginSnapshot (s.online_users ++ [pyStrip u])
          (s.users_db.map Prod.fst))) "登录成功" ∧
    pyStrip u ∈ s.online_users ++ [pyStrip u] := by
  rw [login_success_spec s cu u p hu hp hreg hon]
  exact ⟨rfl, List.mem_append_right _ (List.mem_singleton.mpr rfl)⟩

/-- Witness for C8: the first user `alice` logging in gets
`online_users = ["alice"]` in her login response. -/
theorem C8_login_snapshot_witness :
    (handle_login "alice" "p1" none ⟨[("alice", "p1")], [], [], []⟩).resp =
      create_response "login" "success"
        (some (RespData.loginSnapshot ["alice"] ["alice"])) "登录成功" :=
  (C8_login_snapshot ⟨[("alice", "p1")], [], [], []⟩ none "alice" "p1"
    (by decide) (by decide) (by decide) (by decide)).1

/-! ### C1 -/

/-- C1 counterexample: `handle_client` dispatches `login` without checking the
connection's auth state (src/server.py:300-301), and `handle_login` never
consults the binding.  A connection already bound to `alice` (who is online)
that sends a login for the registered, offline `bob` with the correct password
gets a success response, the session registry gains a second session, and the
connection's binding is rebound to `bob` — the claim predicts an error and no
change. -/
theorem C1_counterexample :
    (step (Request.login "bob" "p2") (some "alice")
        ⟨[("alice", "p1"), ("bob", "p2")], ["alice"], [], []⟩).resp.status = "success" ∧
    (step (Request.login "bob" "p2") (some "alice")
        ⟨[("alice", "p1"), ("bob", "p2")], ["alice"], [], []⟩).state.online_users
      = ["alice", "bob"] ∧
    (step (Request.login "bob" "p2") (some "alice")
        ⟨[("alice", "p1"), ("bob", "p2")], ["alice"], [], []⟩).currentUser = some "bob" := by
  decide

/-- C1 (amended): the dispatcher does not gate `login` on the connection's
state — a login on an authenticated connection is processed exactly as on an
unauthenticated one (its outcome is independent of the binding).  In
particular a login for the connection's own still-online bound username yields
an error response and changes neither the session registry, the rest of the
state, nor the binding. -/
theorem C1_login_not_gated (s : ServerState) (u p v : String) (cu : Option String)
    (_hcu : cu = some v) (hon : v ∈ s.online_users) (huv : pyStrip u = v) :
    (step (Request.login u p) cu s).state = s ∧
    (step (Request.login u p) cu s).currentUser = cu ∧
    (step (Request.login u p) cu s).resp.status = "error" ∧
    (∀ cu' : Option String,
      (step (Request.login u p) cu' s).state = (step (Request.login u p) cu s).state ∧
      (step (Request.login u p) cu' s).resp = (step (Request.login u p) cu s).resp ∧
      (step (Request.login u p) cu' s).selfSends = (step (Request.login u p) cu s).selfSends ∧
      (step (Request.login u p) cu' s).sends = (step (Request.login u p) cu s).sends) := by
  have hon' : pyStrip u ∈ s.online_users := by rw [huv]; exact hon
  have h := login_online_spec s cu u p hon'
  refine ⟨by simpa [step] using h.1, by simpa [step] using h.2.1,
    by simpa [step] using h.2.2.2.2.1, ?_⟩
  intro cu'
  have hi := login_cu_irrelevant s u p cu cu'
  exact ⟨by simpa [step] using hi.1, by simpa [step] using hi.2.1,
    by simpa [step] using hi.2.2.1, by simpa [step] using hi.2.2.2⟩

/-- Witness for C1 (amended) at a concrete state: `alice` is bound and online
and sends a login for herself. -/
theorem C1_login_not_gated_witness :
    (step (Request.login "alice" "p1") (some "alice")
        ⟨[("alice", "p1")], ["alice"], [], []⟩).state = ⟨[("alice", "p1")], ["alice"], [], []⟩ ∧
    (step (Request.login "alice" "p1") (some "alice")
        ⟨[("alice", "p1")], ["alice"], [], []⟩).currentUser = some "alice" ∧
    (step (Request.login "alice" "p1") (some "alice")
        ⟨[("alice", "p1")], ["alice"], [], []⟩).resp.status = "error" := by
  have h := C1_login_not_gated ⟨[("alice", "p1")], ["alice"], [], []⟩ "alice" "p1" "alice"
    (some "alice") rfl (by decide) (by decide)
  exact ⟨h.1, h.2.1, h.2.2.1⟩

/-! ### C2 -/

/-- C2 counterexample: the already-online check comes after the password check
(src/server.py:124-128), so a login request for the online `alice` with a
wrong password returns the wrong-password error, not the already-online error
the claim promises for any login request for an online username. -/
theorem C2_counterexample :
    "alice" ∈ (ServerState.mk [("alice", "p1")] ["alice"] [] []).online_users ∧
    (handle_login "alice" "wrong" none ⟨[("alice", "p1")], ["alice"], [], []⟩).resp
      = create_response "login" "error" none "密码错误" ∧
    (handle_login "alice" "wrong" none ⟨[("alice", "p1")], ["alice"], [], []⟩).resp
      ≠ create_response "login" "error" none "用户已在线" := by
  decide

/-- C2 (amended): if a username is already in the session registry, a login
request for it with well-formed fields and the correct password returns the
already-online error; and no login request for it — whatever the password —
inserts a second session or modifies anything: the state, the binding, the
mailbox drain and the pushes are all untouched. -/
theorem C2_single_session (s : ServerState) (cu : Option String) (u p : String)
    (hon : pyStrip u ∈ s.online_users) :
    (handle_login u p cu s).state = s ∧
    (handle_login u p cu s).currentUser = cu ∧
    (handle_login u p cu s).sends = [] ∧
    (handle_login u p cu s).drained = [] ∧
    (handle_login u p cu s).resp.status = "error" ∧
    (pyStrip u ≠ "" → pyStrip p ≠ "" →
      lookupKey (pyStrip u) s.users_db = some (hash_password (pyStrip p)) →
      (handle_login u p cu s).resp = create_response "login" "error" none "用户已在线") := by
  have h := login_online_spec s cu u p hon
  exact ⟨h.1, h.2.1, h.2.2.2.1, h.2.2.1, h.2.2.2.2.1, h.2.2.2.2.2⟩

/-- Witness for C2 (amended): correct-password login for the online `alice`
gets the already-online error and changes nothing. -/
theorem C2_single_session_witness :
    (handle_login "alice" "p1" none ⟨[("alice", "p1")], ["alice"], [], []⟩).resp
      = create_response "login" "error" none "用户已在线" ∧
    (handle_login "alice" "p1" none ⟨[("alice", "p1")], ["alice"], [], []⟩).state
      = ⟨[("alice", "p1")], ["alice"], [], []⟩ := by
  have h := C2_single_session ⟨[("alice", "p1")], ["alice"], [], []⟩ none "alice" "p1" (by decide)
  exact ⟨h.2.2.2.2.2 (by decide) (by decide) (by decide), h.1⟩

/-! ### C4 -/

/-- C4: `private_chat` errors exactly when the stripped target is empty, the
stripped text is empty, the target equals the sender, or the target is
unregistered; otherwise it builds the `private_message` notification
`{from: sender, message: text}` and either pushes it to the online target's
session channel replying 消息已发送 ("sent"), or appends it to the target's
offline mailbox replying 目标用户不在线，消息已存储为离线消息 ("stored offline"). -/
theorem C4_private_chat_spec (s : ServerState) (sender t m : String) :
    ((handle_private_chat t m sender s).resp.status = "error" ↔
      (pyStrip t = "" ∨ pyStrip m = "" ∨ pyStrip t = sender ∨
       lookupKey (pyStrip t) s.users_db = none)) ∧
    (¬(pyStrip t = "" ∨ pyStrip m = "" ∨ pyStrip t = sender ∨
        lookupKey (pyStrip t) s.users_db = none) →
      pyStrip t ∈ s.online_users →
      handle_private_chat t m sender s =
        ⟨s, create_response "private_chat" "success" none "消息已发送",
         [(pyStrip t, Notif.private_message sender (pyStrip m))]⟩) ∧
    (¬(pyStrip t = "" ∨ pyStrip m = "" ∨ pyStrip t = sender ∨
        lookupKey (pyStrip t) s.users_db = none) →
      pyStrip t ∉ s.online_users →
      handle_private_chat t m sender s =
        ⟨⟨s.users_db, s.online_users, s.groups,
          enqueueOffline (pyStrip t) (Notif.private_message sender (pyStrip m))
            s.offline_messages⟩,
         create_response "private_chat" "success" none "目标用户不在线，消息已存储为离线消息",
         []⟩) := by
  by_cases h1 : pyStrip t = "" ∨ pyStrip m = ""
  · rcases h1 with h1 | h1 <;> refine ⟨?_, ?_, ?_⟩ <;>
      simp_all [handle_private_chat, create_response]
  · push_neg at h1
    by_cases h2 : pyStrip t = sender
    · refine ⟨?_, ?_, ?_⟩ <;> simp_all [handle_private_chat, create_response]
    · rcases hlk : lookupKey (pyStrip t) s.users_db with _ | v
      · refine ⟨?_, ?_, ?_⟩ <;>
          simp_all [handle_private_chat, hasKey, create_response]
      · by_cases h4 : pyStrip t ∈ s.online_users <;> refine ⟨?_, ?_, ?_⟩ <;>
          simp_all [handle_private_chat, hasKey, create_response]

/-- Witness for C4: `alice` messages the online `bob` (delivered) and the
offline `carol` (stored). -/
theorem C4_private_chat_spec_witness :
    handle_private_chat "bob" "hi" "alice"
        ⟨[("alice", "p"), ("bob", "p"), ("carol", "p")], ["alice", "bob"], [], []⟩ =
      ⟨⟨[("alice", "p"), ("bob", "p"), ("carol", "p")], ["alice", "bob"], [], []⟩,
       create_response "private_chat" "success" none "消息已发送",
       [("bob", Notif.private_message "alice" "hi")]⟩ ∧
    handle_private_chat "carol" "hi" "alice"
        ⟨[("alice", "p"), ("bob", "p"), ("carol", "p")], ["alice", "bob"], [], []⟩ =
      ⟨⟨[("alice", "p"), ("bob", "p"), ("carol", "p")], ["alice", "bob"],
        [], [("carol", [Notif.private_message "alice" "hi"])]⟩,
       create_response "private_chat" "success" none "目标用户不在线，消息已存储为离线消息",
       []⟩ := by
  have hb := C4_private_chat_spec
    ⟨[("alice", "p"), ("bob", "p"), ("carol", "p")], ["alice", "bob"], [], []⟩ "alice" "bob" "hi"
  have hc := C4_private_chat_spec
    ⟨[("alice", "p"), ("bob", "p"), ("carol", "p")], ["alice", "bob"], [], []⟩ "alice" "carol" "hi"
  exact ⟨hb.2.1 (by decide) (by decide), hc.2.2 (by decide) (by decide)⟩

/-! ### C5 -/

/-- C5 counterexample: `group_chat` checks the empty-fields condition before
membership (src/server.py:190-197), so a non-member of the existing group `g`
sending a `group_chat` with empty text receives the empty-fields error, not
the not-a-member error the claim promises for every such request. -/
theorem C5_counterexample :
    lookupKey "g"
        (ServerState.mk [("alice", "p1"), ("bob", "p2")] ["alice", "bob"]
          [("g", ["alice"])] []).groups = some ["alice"] ∧
    "bob" ∉ ["alice"] ∧
    (handle_group_chat "g" "" "bob"
        ⟨[("alice", "p1"), ("bob", "p2")], ["alice", "bob"], [("g", ["alice"])], []⟩).resp
      = create_response "group_chat" "error" none "群名和消息内容不能为空" ∧
    (handle_group_chat "g" "" "bob"
        ⟨[("alice", "p1"), ("bob", "p2")], ["alice", "bob"], [("g", ["alice"])], []⟩).resp
      ≠ create_response "group_chat" "error" none "您不在该群组中" := by
  decide

/-- C5 (amended): a non-member sending `group_chat` to an existing group never
gets anything delivered to anyone and never changes any state, and whenever
the request's stripped group and text are non-empty the response is exactly
the not-a-member error (with empty fields it is the empty-fields error). -/
theorem C5_group_isolation (s : ServerState) (sender g m : String) (members : List String)
    (hg : lookupKey (pyStrip g) s.groups = some members) (hmem : sender ∉ members) :
    (handle_group_chat g m sender s).state = s ∧
    (handle_group_chat g m sender s).sends = [] ∧
    (handle_group_chat g m sender s).resp.status = "error" ∧
    (pyStrip g ≠ "" → pyStrip m ≠ "" →
      (handle_group_chat g m sender s).resp
        = create_response "group_chat" "error" none "您不在该群组中") := by
  by_cases h1 : pyStrip g = "" ∨ pyStrip m = ""
  · rcases h1 with h1 | h1 <;> refine ⟨?_, ?_, ?_, ?_⟩ <;>
      simp_all [handle_group_chat, create_response]
  · push_neg at h1
    refine ⟨?_, ?_, ?_, ?_⟩ <;>
      simp [handle_group_chat, h1.1, h1.2, hg, hmem, create_response]

/-- Witness for C5 (amended): non-member `bob` sends non-empty text to `g`. -/
theorem C5_group_isolation_witness :
    (handle_group_chat "g" "hello" "bob"
        ⟨[("alice", "p1"), ("bob", "p2")], ["alice", "bob"], [("g", ["alice"])], []⟩).state
      = ⟨[("alice", "p1"), ("bob", "p2")], ["alice", "bob"], [("g", ["alice"])], []⟩ ∧
    (handle_group_chat "g" "hello" "bob"
        ⟨[("alice", "p1"), ("bob", "p2")], ["alice", "bob"], [("g", ["alice"])], []⟩).sends
      = [] ∧
    (handle_group_chat "g" "hello" "bob"
        ⟨[("alice", "p1"), ("bob", "p2")], ["alice", "bob"], [("g", ["alice"])], []⟩).resp
      = create_response "group_chat" "error" none "您不在该群组中" := by
  have h := C5_group_isolation
    ⟨[("alice", "p1"), ("bob", "p2")], ["alice", "bob"], [("g", ["alice"])], []⟩
    "bob" "g" "hello" ["alice"] (by decide) (by decide)
  exact ⟨h.1, h.2.1, h.2.2.2 (by decide) (by decide)⟩

/-! ### C6 -/

/-- C6: a member's `group_chat` with non-empty fields to an existing group
changes no state, pushes the `group_message` notification to exactly the other
members who are online (sender excluded, offline members skipped and not
queued anywhere), and replies success with `sent_to` equal to the number of
members it was delivered to. -/
theorem C6_group_chat_delivery (s : ServerState) (sender g m : String) (members : List String)
    (hg : lookupKey (pyStrip g) s.groups = some members) (hmem : sender ∈ members)
    (hgne : pyStrip g ≠ "") (hmne : pyStrip m ≠ "") :
    (handle_group_chat g m sender s).state = s ∧
    (handle_group_chat g m sender s).sends =
      (members.filter (fun x => decide (x ≠ sender ∧ x ∈ s.online_users))).map
        (fun x => (x, Notif.group_message sender (pyStrip g) (pyStrip m))) ∧
    (∀ x n, (x, n) ∈ (handle_group_chat g m sender s).sends ↔
      (n = Notif.group_message sender (pyStrip g) (pyStrip m) ∧
       x ∈ members ∧ x ≠ sender ∧ x ∈ s.online_users)) ∧
    (handle_group_chat g m sender s).resp =
      create_response "group_chat" "success"
        (some (RespData.sentTo (handle_group_chat g m sender s).sends.length))
        "消息已发送" := by
  have hspec : handle_group_chat g m sender s =
      ⟨s, create_response "group_chat" "success"
        (some (RespData.sentTo
          (members.filter (fun x => decide (x ≠ sender ∧ x ∈ s.online_users))).length))
        "消息已发送",
       (members.filter (fun x => decide (x ≠ sender ∧ x ∈ s.online_users))).map
         (fun x => (x, Notif.group_message sender (pyStrip g) (pyStrip m)))⟩ := by
    simp [handle_group_chat, hgne, hmne, hg, hmem]
  rw [hspec]
  refine ⟨rfl, rfl, ?_, by simp⟩
  intro x n
  simp only [List.mem_map, List.mem_filter, decide_eq_true_eq]
  constructor
  · rintro ⟨a, ⟨ha, hane, haon⟩, heq⟩
    cases heq
    exact ⟨rfl, ha, hane, haon⟩
  · rintro ⟨rfl, hx, hxne, hxon⟩
    exact ⟨x, ⟨hx, hxne, hxon⟩, rfl⟩

/-- Witness for C6: in group `g = {a, b, c}` with `a` (sender) and `c` online
and `b` offline, `a`'s message reaches exactly `c` and `sent_to = 1`. -/
theorem C6_group_chat_delivery_witness :
    (handle_group_chat "g" "hi" "a"
        ⟨[("a", "p"), ("b", "p"), ("c", "p")], ["a", "c"], [("g", ["a", "b", "c"])], []⟩).state
      = ⟨[("a", "p"), ("b", "p"), ("c", "p")], ["a", "c"], [("g", ["a", "b", "c"])], []⟩ ∧
    (handle_group_chat "g" "hi" "a"
        ⟨[("a", "p"), ("b", "p"), ("c", "p")], ["a", "c"], [("g", ["a", "b", "c"])], []⟩).sends
      = [("c", Notif.group_message "a" "g" "hi")] ∧
    (handle_group_chat "g" "hi" "a"
        ⟨[("a", "p"), ("b", "p"), ("c", "p")], ["a", "c"], [("g", ["a", "b", "c"])], []⟩).resp
      = create_response "group_chat" "success" (some (RespData.sentTo 1)) "消息已发送" := by
  have h := C6_group_chat_delivery
    ⟨[("a", "p"), ("b", "p"), ("c", "p")], ["a", "c"], [("g", ["a", "b", "c"])], []⟩
    "a" "g" "hi" ["a", "b", "c"] (by decide) (by decide) (by decide) (by decide)
  exact ⟨h.1, h.2.1, h.2.2.2⟩

/-! ### Association-list lemmas for the offline mailbox -/

/-- Enqueueing under a key reads back as the old queue with the value
appended. -/
theorem lookupKey_enqueueOffline_self {α : Type} (k : String) (v : α)
    (l : List (String × List α)) :
    lookupKey k (enqueueOffline k v l) = some ((lookupKey k l).getD [] ++ [v]) := by
  induction l with
  | nil => simp [enqueueOffline, lookupKey]
  | cons hd tl ih =>
    obtain ⟨k', vs⟩ := hd
    by_cases hk : k' = k
    · simp [enqueueOffline, lookupKey, hk]
    · simp [enqueueOffline, lookupKey, hk, ih]

/-- Enqueueing under an absent key appends a fresh binding at the end. -/
theorem enqueueOffline_of_lookup_none {α : Type} (k : String) (v : α)
    (l : List (String × List α)) (h : lookupKey k l = none) :
    enqueueOffline k v l = l ++ [(k, [v])] := by
  induction l with
  | nil => rfl
  | cons hd tl ih =>
    obtain ⟨k', vs⟩ := hd
    by_cases hk : k' = k
    · simp [lookupKey, hk] at h
    · simp only [lookupKey, if_neg hk] at h
      simp [enqueueOffline, hk, ih h]

/-- Enqueueing under a key whose only binding is the last element appends to
that binding's queue. -/
theorem enqueueOffline_append_self {α : Type} (k : String) (v : α) (vs : List α)
    (l : List (String × List α)) (h : lookupKey k l = none) :
    enqueueOffline k v (l ++ [(k, vs)]) = l ++ [(k, vs ++ [v])] := by
  induction l with
  | nil => simp [enqueueOffline]
  | cons hd tl ih =>
    obtain ⟨k', vs'⟩ := hd
    by_cases hk : k' = k
    · simp [lookupKey, hk] at h
    · simp only [lookupKey, if_neg hk] at h
      simp [enqueueOffline, hk, ih h]

/-- Deleting an absent key is a no-op. -/
theorem eraseKey_of_lookup_none {α : Type} (k : String) (l : List (String × α))
    (h : lookupKey k l = none) : eraseKey k l = l := by
  induction l with
  | nil => rfl
  | cons hd tl ih =>
    obtain ⟨k', v⟩ := hd
    by_cases hk : k' = k
    · simp [lookupKey, hk] at h
    · simp only [lookupKey, if_neg hk] at h
      simp [eraseKey, hk, ih h]

/-- Deleting a key whose only binding is the last element drops exactly it. -/
theorem eraseKey_append_self {α : Type} (k : String) (v : α)
    (l : List (String × α)) (h : lookupKey k l = none) :
    eraseKey k (l ++ [(k, v)]) = l := by
  induction l with
  | nil => simp [eraseKey]
  | cons hd tl ih =>
    obtain ⟨k', v'⟩ := hd
    by_cases hk : k' = k
    · simp [lookupKey, hk] at h
    · simp only [lookupKey, if_neg hk] at h
      simp [eraseKey, hk, ih h]

/-- Looking up a key whose only binding is the last element finds it. -/
theorem lookupKey_append_self {α : Type} (k : String) (v : α)
    (l : List (String × α)) (h : lookupKey k l = none) :
    lookupKey k (l ++ [(k, v)]) = some v := by
  induction l with
  | nil => simp [lookupKey]
  | cons hd tl ih =>
    obtain ⟨k', v'⟩ := hd
    by_cases hk : k' = k
    · simp [lookupKey, hk] at h
    · simp only [lookupKey, if_neg hk] at h
      simp [lookupKey, hk, ih h]

/-- Folding enqueues of `msgs` under one absent-elsewhere key onto a trailing
binding accumulates the mapped messages in order. -/
theorem foldl_enqueueOffline_append {α β : Type} (k : String) (f : β → α)
    (msgs : List β) (l : List (String × List α)) (vs : List α)
    (h : lookupKey k l = none) :
    msgs.foldl (fun om m => enqueueOffline k (f m) om) (l ++ [(k, vs)])
      = l ++ [(k, vs ++ msgs.map f)] := by
  induction msgs generalizing vs with
  | nil => simp
  | cons m rest ih =>
    simp only [List.foldl_cons]
    rw [enqueueOffline_append_self k (f m) vs l h, ih (vs ++ [f m])]
    simp

/-- Folding enqueues of `msgs` under an absent key: nothing for no messages,
otherwise one fresh trailing binding holding the mapped messages in order. -/
theorem foldl_enqueueOffline_rep {α β : Type} [DecidableEq β] (k : String) (f : β → α)
    (msgs : List β) (l : List (String × List α)) (h : lookupKey k l = none) :
    msgs.foldl (fun om m => enqueueOffline k (f m) om) l
      = if msgs = [] then l else l ++ [(k, msgs.map f)] := by
  cases msgs with
  | nil => simp
  | cons m rest =>
    simp only [List.foldl_cons, if_neg (List.cons_ne_nil m rest)]
    rw [enqueueOffline_of_lookup_none k (f m) l h,
      foldl_enqueueOffline_append k f rest l [f m] h]
    simp

/-! ### C3 -/

/-- One `private_chat` to a registered offline target with well-formed fields
only enqueues the notification into the target's offline mailbox. -/
theorem private_chat_offline_state (s : ServerState) (sender target m : String)
    (ht : pyStrip target = target) (htne : target ≠ "") (hts : target ≠ sender)
    (hm : pyStrip m ≠ "") (h1 : hasKey target s.users_db = true)
    (h2 : target ∉ s.online_users) :
    (handle_private_chat target m sender s).state =
      ⟨s.users_db, s.online_users, s.groups,
       enqueueOffline target (Notif.private_message sender (pyStrip m))
         s.offline_messages⟩ := by
  simp [handle_private_chat, ht, htne, hts, hm, h1, h2]

/-- Iterated offline `private_chat`s only fold enqueues into the mailbox; the
user database, session registry and groups are untouched. -/
theorem privateChatSeq_state (sender target : String)
    (ht : pyStrip target = target) (htne : target ≠ "") (hts : target ≠ sender) :
    ∀ (msgs : List String) (s : ServerState),
      (∀ m ∈ msgs, pyStrip m ≠ "") →
      hasKey target s.users_db = true →
      target ∉ s.online_users →
      privateChatSeq sender target msgs s =
        ⟨s.users_db, s.online_users, s.groups,
         msgs.foldl
           (fun om m => enqueueOffline target (Notif.private_message sender (pyStrip m)) om)
           s.offline_messages⟩ := by
  intro msgs
  induction msgs with
  | nil =>
    intro s _ _ _
    simp [privateChatSeq]
  | cons m rest ih =>
    intro s hmsgs h1 h2
    have hm : pyStrip m ≠ "" := hmsgs m (List.mem_cons_self m rest)
    have hstep := private_chat_offline_state s sender target m ht htne hts hm h1 h2
    simp only [privateChatSeq, List.foldl_cons] at ih ⊢
    rw [hstep]
    exact ih ⟨s.users_db, s.online_users, s.groups,
      enqueueOffline target (Notif.private_message sender (pyStrip m)) s.offline_messages⟩
      (fun m' hm' => hmsgs m' (List.mem_cons_of_mem m hm')) h1 h2

/-- C3: from a state where `target` is registered with password `p`, offline,
and has no offline mailbox, after `sender` sends the texts `msgs` as
`private_chat`s the target's next login succeeds and drains exactly the
corresponding notifications, in order, onto the target's channel; afterwards
the mailbox is gone, and logging out and logging in again drains nothing. -/
theorem C3_offline_mailbox_roundtrip (s : ServerState) (sender target p : String)
    (msgs : List String) (cu cu2 : Option String)
    (ht : pyStrip target = target) (htne : target ≠ "") (hts : target ≠ sender)
    (hp : pyStrip p ≠ "")
    (hreg : lookupKey target s.users_db = some (hash_password (pyStrip p)))
    (hoff : target ∉ s.online_users)
    (hmb : lookupKey target s.offline_messages = none)
    (hmsgs : ∀ m ∈ msgs, pyStrip m ≠ "") :
    (handle_login target p cu (privateChatSeq sender target msgs s)).resp.status = "success" ∧
    (handle_login target p cu (privateChatSeq sender target msgs s)).drained
      = msgs.map (fun m => Notif.private_message sender (pyStrip m)) ∧
    lookupKey target
      (handle_login target p cu (privateChatSeq sender target msgs s)).state.offline_messages
      = none ∧
    (handle_login target p cu2
      (handle_logout target
        (handle_login target p cu (privateChatSeq sender target msgs s)).state).1).resp.status
      = "success" ∧
    (handle_login target p cu2
      (handle_logout target
        (handle_login target p cu (privateChatSeq sender target msgs s)).state).1).drained
      = [] := by
  have htne' : pyStrip target ≠ "" := by rw [ht]; exact htne
  have hseq := privateChatSeq_state sender target ht htne hts msgs s hmsgs
    (by simp [hasKey, hreg]) hoff
  rw [hseq]
  have hrep := foldl_enqueueOffline_rep target
    (fun m => Notif.private_message sender (pyStrip m)) msgs s.offline_messages hmb
  rw [hrep]
  set OM := if msgs = [] then s.offline_messages
    else s.offline_messages
      ++ [(target, msgs.map (fun m => Notif.private_message sender (pyStrip m)))] with hOMdef
  have hlOM : (lookupKey target OM).getD []
      = msgs.map (fun m => Notif.private_message sender (pyStrip m)) := by
    by_cases hnil : msgs = []
    · subst hnil; simp [hOMdef, hmb]
    · rw [hOMdef, if_neg hnil, lookupKey_append_self target _ _ hmb]; rfl
  have herOM : eraseKey target OM = s.offline_messages := by
    by_cases hnil : msgs = []
    · subst hnil; simp [hOMdef, eraseKey_of_lookup_none target _ hmb]
    · rw [hOMdef, if_neg hnil, eraseKey_append_self target _ _ hmb]
  have h1 := login_success_spec ⟨s.users_db, s.online_users, s.groups, OM⟩ cu target p
    htne' hp (by simpa [ht] using hreg) (by simpa [ht] using hoff)
  simp only [ht] at h1
  have hstate : (handle_login target p cu ⟨s.users_db, s.online_users, s.groups, OM⟩).state
      = ⟨s.users_db, s.online_users ++ [target], s.groups, eraseKey target OM⟩ := by
    rw [h1]
  have hresp : (handle_login target p cu ⟨s.users_db, s.online_users, s.groups, OM⟩).resp
      = create_response "login" "success"
        (some (RespData.loginSnapshot (s.online_users ++ [target]) (s.users_db.map Prod.fst)))
        "登录成功" := by
    rw [h1]
  have hdrained :
      (handle_login target p cu ⟨s.users_db, s.online_users, s.groups, OM⟩).drained
      = (lookupKey target OM).getD [] := by
    rw [h1]
  have hlg : (handle_logout target
      ⟨s.users_db, s.online_users ++ [target], s.groups, eraseKey target OM⟩).1
      = ⟨s.users_db, s.online_users, s.groups, eraseKey target OM⟩ := by
    have hmem : target ∈ s.online_users ++ [target] := List.mem_append_right _ (by simp)
    simp only [handle_logout, if_pos hmem]
    rw [List.erase_append_right _ hoff, List.erase_cons_head, List.append_nil]
  have h2 := login_success_spec ⟨s.users_db, s.online_users, s.groups, eraseKey target OM⟩
    cu2 target p htne' hp (by simpa [ht] using hreg) (by simpa [ht] using hoff)
  simp only [ht] at h2
  refine ⟨by rw [hresp]; rfl, by rw [hdrained, hlOM], ?_, ?_, ?_⟩
  · rw [hstate]
    simp [herOM, hmb]
  · rw [hstate, hlg, h2]
    rfl
  · rw [hstate, hlg, h2]
    simp [herOM, hmb]

/-- Witness for C3: two messages from `alice` to the offline `bob` are stored
and drained, in order, on `bob`'s next login; a logout and second login then
drain nothing. -/
theorem C3_offline_mailbox_roundtrip_witness :
    (handle_login "bob" "pb" none
      (privateChatSeq "alice" "bob" ["m1", "m2"]
        ⟨[("alice", "pa"), ("bob", "pb")], ["alice"], [], []⟩)).resp.status = "success" ∧
    (handle_login "bob" "pb" none
      (privateChatSeq "alice" "bob" ["m1", "m2"]
        ⟨[("alice", "pa"), ("bob", "pb")], ["alice"], [], []⟩)).drained
      = [Notif.private_message "alice" "m1", Notif.private_message "alice" "m2"] ∧
    (handle_login "bob" "pb" none
      (handle_logout "bob"
        (handle_login "bob" "pb" none
          (privateChatSeq "alice" "bob" ["m1", "m2"]
            ⟨[("alice", "pa"), ("bob", "pb")], ["alice"], [], []⟩)).state).1).drained = [] := by
  have h := C3_offline_mailbox_roundtrip ⟨[("alice", "pa"), ("bob", "pb")], ["alice"], [], []⟩
    "alice" "bob" "pb" ["m1", "m2"] none none (by decide) (by decide) (by decide) (by decide)
    (by decide) (by decide) (by decide) (by decide)
  exact ⟨h.1, h.2.1, h.2.2.2.2⟩

/-! ### C10 -/

/-- C10: `register`, `login`, `create_group` and `join_group` strip their
name/password fields before any lookup or store, so requests whose field
values differ only in surrounding whitespace are processed identically;
concretely, registering `" alice "` and then `"alice"` yields the
already-exists error, and a login as `"alice"` succeeds for the user
registered as `" alice "`. -/
theorem C10_whitespace_insensitive_keys (s : ServerState) (cu : Option String)
    (u1 u2 p1 p2 g1 g2 w : String)
    (hu : pyStrip u1 = pyStrip u2) (hp : pyStrip p1 = pyStrip p2)
    (hg : pyStrip g1 = pyStrip g2) :
    handle_register u1 p1 s = handle_register u2 p2 s ∧
    handle_login u1 p1 cu s = handle_login u2 p2 cu s ∧
    handle_create_group g1 w s = handle_create_group g2 w s ∧
    handle_join_group g1 w s = handle_join_group g2 w s ∧
    (handle_register "alice" "x"
        (handle_register " alice " "p1" initialState).state).resp
      = create_response "register" "error" none "用户名已存在" ∧
    (handle_login "alice" "p1" none
        (handle_register " alice " "p1" initialState).state).resp.status = "success" := by
  refine ⟨?_, ?_, ?_, ?_, by decide, by decide⟩
  · simp [handle_register, hu, hp]
  · simp [handle_login, hu, hp]
  · simp [handle_create_group, hg]
  · simp [handle_join_group, hg]

/-- Witness for C10 at concrete whitespace-differing fields. -/
theorem C10_whitespace_insensitive_keys_witness :
    handle_register " alice " " p1 " initialState
      = handle_register "alice" "p1" initialState ∧
    handle_login " alice " " p1 " none initialState
      = handle_login "alice" "p1" none initialState ∧
    handle_create_group " g " "alice" initialState
      = handle_create_group "g" "alice" initialState ∧
    handle_join_group " g " "alice" initialState
      = handle_join_group "g" "alice" initialState ∧
    (handle_register "alice" "x"
        (handle_register " alice " "p1" initialState).state).resp
      = create_response "register" "error" none "用户名已存在" ∧
    (handle_login "alice" "p1" none
        (handle_register " alice " "p1" initialState).state).resp.status = "success" :=
  C10_whitespace_insensitive_keys initialState none " alice " "alice" " p1 " "p1" " g " "g"
    "alice" (by decide) (by decide) (by decide)

end ChatApp
